import Mathlib

/-!
Verification of the response-interpretation layer of solid.js
(`lib/solid/response.js`): a shallow embedding of the `SolidResponse`
constructor and its query methods, together with models of the two
header-parsing helpers it imports from `lib/util/web-util.js`.

JavaScript values that can be `null`/`undefined` are embedded as
`Option`; the JS `a || b` idiom is embedded by explicit functions
(`jsOrStr`, `jsOrOpt`) that test string emptiness, matching JS
falsiness on strings.  Query methods whose JS return value can be a
non-Boolean falsy value are given the small universe `JsVal`.
-/

/-- Model of the raw XHR response object consumed by `SolidResponse`:
a header list (looked up by exact name), an HTTP status code, the
effective response URL, and the response body. -/
structure Xhr where
  headers : List (String × String)
  status : Int
  responseURL : String
  response : String
deriving DecidableEq, Repr

/-- Embedding of `xhrResponse.getResponseHeader(name)`: the first header
with the given name, or `none` (JS `null`) when absent. -/
def getResponseHeader (x : Xhr) (name : String) : Option String :=
  (x.headers.find? (fun p => p.1 = name)).map (fun p => p.2)

/-- Universe of JS values returned by `exists` and `isLoggedIn`:
`null`, a Boolean, or a string. -/
inductive JsVal where
  | jnull : JsVal
  | jbool : Bool → JsVal
  | jstr : String → JsVal
deriving DecidableEq, Repr

/-- JS truthiness of a `JsVal`: `null` is falsy, a Boolean is itself,
a string is truthy iff non-empty. -/
def JsVal.truthy : JsVal → Bool
  | .jnull => false
  | .jbool b => b
  | .jstr s => !(s = "")

/-- Embedding of JS `a || b` where `a` is a string-or-null and `b` a
string: yields `b` when `a` is `null` or the empty string. -/
def jsOrStr (a : Option String) (b : String) : String :=
  match a with
  | some s => if s = "" then b else s
  | none => b

/-- Embedding of JS `a || b` where both operands are
string-or-undefined: yields `b` when `a` is absent or empty. -/
def jsOrOpt (a b : Option String) : Option String :=
  match a with
  | some s => if s = "" then b else some s
  | none => b

/-- A parsed `Link:` header map: association list from relation name to
target, unique keys, later insertions overwriting earlier ones. -/
def LinkMap := List (String × String)
deriving DecidableEq, Repr

/-- Lookup in a `LinkMap`, embedding JS object property access
(`undefined`, i.e. `none`, when the key is absent). -/
def LinkMap.lookup (m : LinkMap) (k : String) : Option String :=
  (List.find? (fun p => p.1 = k) m).map (fun p => p.2)

/-- Insert with overwrite ("last wins"): any earlier binding of the key
is removed, embedding repeated assignment to one JS object property. -/
def LinkMap.insertLW (m : LinkMap) (k v : String) : LinkMap :=
  List.filter (fun p => !(p.1 = k)) m ++ [(k, v)]

/-- Strip leading and trailing whitespace from a character list. -/
def trimChars (cs : List Char) : List Char :=
  ((cs.dropWhile Char.isWhitespace).reverse.dropWhile Char.isWhitespace).reverse

/-- Split a character list on top-level commas: commas inside
angle-bracketed URIs or inside double-quoted parameter values do not
separate entries. -/
def splitEntries (cs : List Char) (inA inQ : Bool) (cur : List Char) : List (List Char) :=
  match cs with
  | [] => [cur.reverse]
  | c :: rest =>
    if c = ',' && !inA && !inQ then
      cur.reverse :: splitEntries rest false false []
    else
      let inA2 := if inQ then inA else (if c = '<' then true else if c = '>' then false else inA)
      let inQ2 := if c = '"' && !inA then !inQ else inQ
      splitEntries rest inA2 inQ2 (c :: cur)

/-- Extract the bracketed target URI of one Link-header entry: the
characters between the first `<` and the following `>`, or `none` when
either bracket is missing. -/
def extractTarget (cs : List Char) : Option String :=
  match cs.dropWhile (fun c => !(c = '<')) with
  | [] => none
  | _ :: rest =>
    if (rest.dropWhile (fun c => !(c = '>'))) = [] then none
    else some (String.mk (rest.takeWhile (fun c => !(c = '>'))))

/-- Split a character list on a separator character (every occurrence,
no nesting awareness). -/
def splitOnChar (cs : List Char) (sep : Char) (cur : List Char) : List (List Char) :=
  match cs with
  | [] => [cur.reverse]
  | c :: rest =>
    if c = sep then cur.reverse :: splitOnChar rest sep []
    else splitOnChar rest sep (c :: cur)

/-- Strip one pair of surrounding double quotes, when present. -/
def stripQuotes (cs : List Char) : List Char :=
  match cs with
  | '"' :: rest =>
    match rest.reverse with
    | '"' :: mid => mid.reverse
    | _ => cs
  | _ => cs

/-- Extract the value of the `rel=` parameter of one Link-header entry:
parameters are separated by `;`; the first parameter whose trimmed form
starts with `rel=` supplies the value, with surrounding quotes
stripped; `none` when no `rel=` parameter is present. -/
def getRel (cs : List Char) : Option String :=
  (List.find? (fun p => (trimChars p).take 4 = String.toList "rel=")
      (splitOnChar cs ';' [])).map
    (fun p => String.mk (stripQuotes ((trimChars p).drop 4)))

/-- Modelled from the spec: `parseLinkHeader` of `lib/util/web-util.js`
(not under `src/`).  Splits the raw `Link` header value on top-level
commas, extracts each entry's bracketed target URI and `rel` parameter
value (quotes stripped), inserts into the map under the `rel` value
with later occurrences overwriting earlier ones; malformed entries
(missing `rel` or missing bracketed URI) are skipped; missing or empty
input yields the empty map. -/
def parseLinkHeader (h : Option String) : LinkMap :=
  match h with
  | none => []
  | some s =>
    if s = "" then []
    else
      (splitEntries s.toList false false []).foldl
        (fun m entry =>
          match extractTarget entry, getRel entry with
          | some t, some r => m.insertLW r t
          | _, _ => m)
        []

/-- A parsed verb-allowance map: the set of lower-cased verbs asserted
allowed (a verb's presence embeds the JS map entry `verb: true`). -/
def AllowMap := List String
deriving DecidableEq, Repr

/-- Modelled from the spec: `parseAllowedMethods` of
`lib/util/web-util.js` (not under `src/`).  Splits the `Allow` header
on commas, trims and lower-cases each token, keeps the non-empty ones;
when the `Accept-Patch` header is present and non-empty, additionally
asserts `patch` even if absent from `Allow`; both inputs missing or
empty yields the empty map. -/
def parseAllowedMethods (allow acceptPatch : Option String) : AllowMap :=
  let base : List String :=
    match allow with
    | none => []
    | some s =>
      ((splitOnChar s.toList ',' []).map
        (fun t => String.mk ((trimChars t).map Char.toLower))).filter
        (fun v => !(v = ""))
  let hasPatch : Bool :=
    match acceptPatch with
    | none => false
    | some s => !(s = "")
  if hasPatch && !(List.contains base "patch") then base ++ ["patch"] else base

/-- The `SolidResponse` view object.  Every JS property that the
degraded (falsy-response) constructor branch leaves unassigned is
embedded as an `Option` whose `none` covers JS `undefined`; `method`'s
`none` covers the explicit `null` of the degraded branch. -/
structure SolidResponse where
  xhr : Option Xhr
  user : Option String
  method : Option String
  linkHeaders : Option LinkMap
  acl : Option String
  allowedMethods : Option AllowMap
  meta : Option String
  type : Option String
  url : Option String
  websocket : Option String
deriving DecidableEq, Repr

/-- Embedding of the verb normalization in the constructor:
`if (method) method = method.toLowerCase(); else method = ''`. -/
def normalizeMethod (m : Option String) : String :=
  match m with
  | some s => if s = "" then "" else String.mk (s.toList.map Char.toLower)
  | none => ""

/-- Embedding of `SolidResponse.prototype.parseAllowedMethods`: returns
the empty map when the (already normalized) request verb is `get`,
otherwise parses the `Allow` and `Accept-Patch` response headers. -/
def SolidResponse.parseAllowedMethodsOf (x : Xhr) (method : String) : AllowMap :=
  if method = "get" then []
  else parseAllowedMethods (getResponseHeader x "Allow") (getResponseHeader x "Accept-Patch")

/-- Embedding of the `SolidResponse` constructor.  A falsy
`xhrResponse` (here `none`) takes the early-return branch that assigns
only `xhr`, `user` and `method`, leaving every other property
undefined.  Otherwise every field is derived exactly as in the source:
the `Link` header is parsed (with the `|| {}` fallback embedded by
`jsOrOpt`-style emptiness never arising, since the modelled parser is
total), the verb is normalized, and the remaining headers are read with
`||` defaults. -/
def SolidResponse.construct (xhrResponse : Option Xhr) (method : Option String) : SolidResponse :=
  match xhrResponse with
  | none =>
    { xhr := none, user := some "", method := none,
      linkHeaders := none, acl := none, allowedMethods := none,
      meta := none, type := none, url := none, websocket := none }
  | some x =>
    let linkHeaders : LinkMap := parseLinkHeader (getResponseHeader x "Link")
    let m : String := normalizeMethod method
    { xhr := some x
      user := some (jsOrStr (getResponseHeader x "User") "")
      method := some m
      linkHeaders := some linkHeaders
      acl := linkHeaders.lookup "acl"
      allowedMethods := some (SolidResponse.parseAllowedMethodsOf x m)
      meta := jsOrOpt (linkHeaders.lookup "meta") (linkHeaders.lookup "describedBy")
      type := linkHeaders.lookup "type"
      url := some (jsOrStr (getResponseHeader x "Location") x.responseURL)
      websocket := some (jsOrStr (getResponseHeader x "Updates-Via") "") }

/-- Embedding of `SolidResponse.prototype.contentType`: the
`Content-Type` header of the raw response when present, else `null`. -/
def SolidResponse.contentType (v : SolidResponse) : Option String :=
  match v.xhr with
  | some x => getResponseHeader x "Content-Type"
  | none => none

/-- Embedding of `SolidResponse.prototype.exists`:
`this.xhr && this.xhr.status >= 200 && this.xhr.status < 400`.  When
`this.xhr` is `null` the JS conjunction short-circuits and returns
`null` itself; otherwise it returns the Boolean of the status test. -/
def SolidResponse.existsCheck (v : SolidResponse) : JsVal :=
  match v.xhr with
  | none => .jnull
  | some x => .jbool (decide (200 ≤ x.status) && decide (x.status < 400))

/-- Embedding of `SolidResponse.prototype.isLoggedIn`: returns
`this.user` itself (the URI-shape check is commented out in the
source), hence a string for every constructed view. -/
def SolidResponse.isLoggedIn (v : SolidResponse) : JsVal :=
  match v.user with
  | some s => .jstr s
  | none => .jnull

/-- Embedding of `SolidResponse.prototype.raw`: the raw response body
when a raw response is present, else `null`. -/
def SolidResponse.raw (v : SolidResponse) : Option String :=
  match v.xhr with
  | some x => some x.response
  | none => none

/-- Call-embedding of `contentType` with the receiver threaded as
state: the method body contains no assignment to `this`, so the
returned view is the receiver itself. -/
def SolidResponse.contentTypeCall (v : SolidResponse) : Option String × SolidResponse :=
  (match v.xhr with
   | some x => getResponseHeader x "Content-Type"
   | none => none, v)

/-- Call-embedding of `exists` with the receiver threaded as state. -/
def SolidResponse.existsCheckCall (v : SolidResponse) : JsVal × SolidResponse :=
  (match v.xhr with
   | none => .jnull
   | some x => .jbool (decide (200 ≤ x.status) && decide (x.status < 400)), v)

/-- Call-embedding of `isLoggedIn` with the receiver threaded as
state. -/
def SolidResponse.isLoggedInCall (v : SolidResponse) : JsVal × SolidResponse :=
  (match v.user with
   | some s => .jstr s
   | none => .jnull, v)

/-- Call-embedding of `raw` with the receiver threaded as state. -/
def SolidResponse.rawCall (v : SolidResponse) : Option String × SolidResponse :=
  (match v.xhr with
   | some x => some x.response
   | none => none, v)

/-- A raw response carrying no headers at all. -/
def xhrBare : Xhr :=
  { headers := [], status := 200, responseURL := "http://example.org/resource", response := "body" }

/-- A raw response with a given status code and no headers. -/
def xhrWithStatus (n : Int) : Xhr :=
  { headers := [], status := n, responseURL := "http://example.org/resource", response := "body" }

/-- A raw response whose only Link relation is `describedBy` with
target `a`. -/
def xhrDescribedBy : Xhr :=
  { headers := [("Link", "<a>; rel=\"describedBy\"")], status := 200, responseURL := "u", response := "b" }

/-- A raw response advertising `Allow: GET, PUT` and an
`Accept-Patch` media type. -/
def xhrAllow : Xhr :=
  { headers := [("Allow", "GET, PUT"), ("Accept-Patch", "application/sparql-update")],
    status := 200, responseURL := "u", response := "b" }

/-- A raw response with a `User` header whose value is not an http
URI. -/
def xhrUserPlain : Xhr :=
  { headers := [("User", "alice")], status := 200, responseURL := "u", response := "b" }

/-- Claim C1: construction is total — for every input pair the
constructor returns a view, and when the raw response is falsy it
returns immediately the degraded view with `xhr = null`, `user = ''`
and `method = null` (and every other property left unassigned),
touching no header; for a truthy raw response the constructor also
completes and retains the raw response. -/
theorem C1_construction_total :
    (∀ m : Option String,
      SolidResponse.construct none m =
        { xhr := none, user := some "", method := none,
          linkHeaders := none, acl := none, allowedMethods := none,
          meta := none, type := none, url := none, websocket := none }) ∧
    (∀ (x : Xhr) (m : Option String), (SolidResponse.construct (some x) m).xhr = some x) :=
  ⟨fun _ => rfl, fun _ _ => rfl⟩

/-- Claim C2: for every view whose request verb normalizes to `get`
(whatever its letter case) the `allowedMethods` map is empty regardless
of the `Allow` and `Accept-Patch` headers, and for every other verb it
is exactly the parse of those two headers; checked concretely on a
response advertising `Allow: GET, PUT` and an `Accept-Patch` type. -/
theorem C2_allowedMethods_get_empty :
    (∀ (x : Xhr) (m : Option String),
      (SolidResponse.construct (some x) m).allowedMethods =
        some (if normalizeMethod m = "get" then ([] : AllowMap)
          else parseAllowedMethods (getResponseHeader x "Allow")
            (getResponseHeader x "Accept-Patch"))) ∧
    (SolidResponse.construct (some xhrAllow) (some "GET")).allowedMethods = some ([] : AllowMap) ∧
    (SolidResponse.construct (some xhrAllow) (some "options")).allowedMethods =
      some (["get", "put", "patch"] : AllowMap) :=
  ⟨fun _ _ => rfl, by decide, by decide⟩

/-- Claim C5 counterexample: the degraded constructor branch returns
before assigning `linkHeaders`, so on a falsy raw response that field
is left undefined — it is not the empty map the claim states. -/
theorem C5_counterexample_linkHeaders_undefined :
    (SolidResponse.construct none none).linkHeaders = none ∧
    (SolidResponse.construct none none).linkHeaders ≠ some ([] : LinkMap) := by
  decide

/-- Claim C5 amended: for every view constructed with a falsy raw
response, the `linkHeaders` field is left undefined (absent), not an
empty map. -/
theorem C5_amended_linkHeaders_absent :
    ∀ m : Option String, (SolidResponse.construct none m).linkHeaders = none :=
  fun _ => rfl

/-- Claim C7: `contentType()` returns the `Content-Type` header value
when a raw response is present and the null sentinel otherwise;
`raw()` returns the raw response's body when present and the null
sentinel otherwise. -/
theorem C7_contentType_raw_passthrough :
    (∀ (x : Xhr) (m : Option String),
      (SolidResponse.construct (some x) m).contentType = getResponseHeader x "Content-Type" ∧
      (SolidResponse.construct (some x) m).raw = some x.response) ∧
    (∀ m : Option String,
      (SolidResponse.construct none m).contentType = none ∧
      (SolidResponse.construct none m).raw = none) :=
  ⟨fun _ _ => ⟨rfl, rfl⟩, fun _ => ⟨rfl, rfl⟩⟩

/-- Claim C8: each query method, embedded with the receiver threaded
as state, leaves the view unchanged, and a repeated call to the same
method on the resulting view returns an identical result. -/
theorem C8_queries_pure_idempotent :
    ∀ v : SolidResponse,
      (v.contentTypeCall.2 = v ∧ v.existsCheckCall.2 = v ∧
        v.isLoggedInCall.2 = v ∧ v.rawCall.2 = v) ∧
      ((v.contentTypeCall.2).contentTypeCall.1 = v.contentTypeCall.1 ∧
        (v.existsCheckCall.2).existsCheckCall.1 = v.existsCheckCall.1 ∧
        (v.isLoggedInCall.2).isLoggedInCall.1 = v.isLoggedInCall.1 ∧
        (v.rawCall.2).rawCall.1 = v.rawCall.1) :=
  fun _ => ⟨⟨rfl, rfl, rfl, rfl⟩, ⟨rfl, rfl, rfl, rfl⟩⟩

/-- Claim C9: on a view built from a falsy raw response, `exists()`
evaluates to the null sentinel — a falsy value distinct from the
Boolean `false` — because the JS conjunction short-circuits on the
null `xhr` field. -/
theorem C9_exists_null_sentinel :
    ∀ m : Option String,
      (SolidResponse.construct none m).existsCheck = JsVal.jnull ∧
      JsVal.jnull ≠ JsVal.jbool false ∧
      ((SolidResponse.construct none m).existsCheck).truthy = false :=
  fun _ => ⟨rfl, by decide, rfl⟩

/-- Claim C3 counterexample: for a view constructed with no raw
response, `exists()` does not return the Boolean `false` the claim
states — it returns the null sentinel. -/
theorem C3_counterexample_exists_null_case :
    (SolidResponse.construct none (some "get")).existsCheck = JsVal.jnull ∧
    (SolidResponse.construct none (some "get")).existsCheck ≠ JsVal.jbool false := by
  decide

/-- Claim C3 amended: `exists()` returns the Boolean `true` iff a raw
response is present and its status lies in `[200, 400)`; it returns
the Boolean `false` for statuses 404 and 500; for a view constructed
with no raw response it returns the falsy null sentinel rather than
the Boolean `false`. -/
theorem C3_amended_exists_status_range :
    (∀ (x : Xhr) (m : Option String),
      ((SolidResponse.construct (some x) m).existsCheck = JsVal.jbool true ↔
        200 ≤ x.status ∧ x.status < 400)) ∧
    (∀ m : Option String, (SolidResponse.construct none m).existsCheck = JsVal.jnull) ∧
    ((SolidResponse.construct (some (xhrWithStatus 200)) none).existsCheck = JsVal.jbool true ∧
      (SolidResponse.construct (some (xhrWithStatus 204)) none).existsCheck = JsVal.jbool true ∧
      (SolidResponse.construct (some (xhrWithStatus 301)) none).existsCheck = JsVal.jbool true ∧
      (SolidResponse.construct (some (xhrWithStatus 404)) none).existsCheck = JsVal.jbool false ∧
      (SolidResponse.construct (some (xhrWithStatus 500)) none).existsCheck = JsVal.jbool false) ∧
    JsVal.truthy JsVal.jnull = false := by
  refine ⟨fun x m => ?_, fun _ => rfl, by decide, rfl⟩
  have h : (SolidResponse.construct (some x) m).existsCheck =
      JsVal.jbool (decide (200 ≤ x.status) && decide (x.status < 400)) := rfl
  rw [h]
  simp [JsVal.jbool.injEq, Bool.and_eq_true, decide_eq_true_iff]

/-- Claim C4: for every view built from a truthy raw response, `meta`
equals the `meta` entry of the parsed Link map when that entry is
present and truthy, and otherwise falls back to its `describedBy`
entry; in particular a Link header carrying only
`rel="describedBy"` with target `a` yields `meta = 'a'`. -/
theorem C4_meta_describedBy_fallback :
    (∀ (x : Xhr) (m : Option String),
      (SolidResponse.construct (some x) m).meta =
        jsOrOpt ((parseLinkHeader (getResponseHeader x "Link")).lookup "meta")
          ((parseLinkHeader (getResponseHeader x "Link")).lookup "describedBy")) ∧
    (SolidResponse.construct (some xhrDescribedBy) none).meta = some "a" :=
  ⟨fun _ _ => rfl, by decide⟩

/-- Claim C6: `isLoggedIn()` is truthy iff the `User` header carried a
non-empty value — false when the header is absent or empty, true for
any non-empty value with no URI-shape validation (checked concretely
on a non-URI user value), and false on the degraded view. -/
theorem C6_isLoggedIn_truthy_iff :
    (∀ (x : Xhr) (m : Option String),
      (((SolidResponse.construct (some x) m).isLoggedIn).truthy = true ↔
        ∃ s, getResponseHeader x "User" = some s ∧ s ≠ "")) ∧
    (∀ m : Option String, ((SolidResponse.construct none m).isLoggedIn).truthy = false) ∧
    ((SolidResponse.construct (some xhrUserPlain) none).isLoggedIn).truthy = true := by
  refine ⟨fun x m => ?_, fun _ => rfl, by decide⟩
  have h : (SolidResponse.construct (some x) m).isLoggedIn =
      JsVal.jstr (jsOrStr (getResponseHeader x "User") "") := rfl
  rw [h]
  cases hu : getResponseHeader x "User" with
  | none => simp [JsVal.truthy, jsOrStr]
  | some s =>
    by_cases hs : s = ""
    · subst hs
      simp [JsVal.truthy, jsOrStr]
    · simp [JsVal.truthy, jsOrStr, hs]

/-- Claim C10: every view built from a truthy raw response has `user`
and `websocket` defined as strings (never null: the empty string when
the `User` or `Updates-Via` header is absent) and `linkHeaders`
defined as a map (empty when the `Link` header is absent), because
each assignment applies a logical-or default. -/
theorem C10_truthy_branch_defaults :
    ∀ (x : Xhr) (m : Option String),
      ((SolidResponse.construct (some x) m).user ≠ none ∧
        (SolidResponse.construct (some x) m).websocket ≠ none ∧
        (SolidResponse.construct (some x) m).linkHeaders ≠ none) ∧
      (getResponseHeader x "User" = none →
        (SolidResponse.construct (some x) m).user = some "") ∧
      (getResponseHeader x "Updates-Via" = none →
        (SolidResponse.construct (some x) m).websocket = some "") ∧
      (getResponseHeader x "Link" = none →
        (SolidResponse.construct (some x) m).linkHeaders = some ([] : LinkMap)) := by
  intro x m
  have hu : (SolidResponse.construct (some x) m).user =
      some (jsOrStr (getResponseHeader x "User") "") := rfl
  have hw : (SolidResponse.construct (some x) m).websocket =
      some (jsOrStr (getResponseHeader x "Updates-Via") "") := rfl
  have hl : (SolidResponse.construct (some x) m).linkHeaders =
      some (parseLinkHeader (getResponseHeader x "Link")) := rfl
  refine ⟨⟨by simp [hu], by simp [hw], by simp [hl]⟩, ?_, ?_, ?_⟩
  · intro h
    rw [hu, h]
    rfl
  · intro h
    rw [hw, h]
    rfl
  · intro h
    rw [hl, h]
    rfl

/-- Witness for C10: on a concrete raw response carrying no headers at
all, the defaults are the empty string and the empty map. -/
theorem C10_truthy_branch_defaults_witness :
    (SolidResponse.construct (some xhrBare) none).user = some "" ∧
    (SolidResponse.construct (some xhrBare) none).websocket = some "" ∧
    (SolidResponse.construct (some xhrBare) none).linkHeaders = some ([] : LinkMap) :=
  ⟨(C10_truthy_branch_defaults xhrBare none).2.1 rfl,
    (C10_truthy_branch_defaults xhrBare none).2.2.1 rfl,
    (C10_truthy_branch_defaults xhrBare none).2.2.2 rfl⟩
